import Mathlib

/-!
Verification development for the `workflow-orchestrator` repository
(`orchestrator/models.py`, `orchestrator/config.py`, `orchestrator/docker_manager.py`,
`orchestrator/workflow_manager.py`, `cli/cli.py`).

The Python code is shallowly embedded:

* dataclasses become structures whose fields mirror the declared dataclass
  fields in source order;
* Python dynamic lookups that the source performs on names that the
  corresponding class does **not** declare (enum members such as
  `WorkflowState.REVIEWING`, config attributes such as
  `OrchestratorConfig.review_enabled`, Docker-manager methods such as
  `exec_agent_in_container`, instance attributes such as
  `Workflow.container_id` on a freshly deserialized record) are embedded as
  explicit lookups into the list of names the source really declares, raising
  `AttributeError` exactly as Python does;
* fallible code runs in a writer/except monad `M` that records the trace of
  persistence and externally visible effects next to the result.

Exception messages are abbreviated renderings of the Python ones (they carry
the same class/attribute information but not the exact punctuation).
-/

/-- Claim support: Python exception values raised by the embedded code.
`attributeError cls attr` stands for the `AttributeError` raised when
attribute `attr` is looked up on an object (or type) of class `cls`. -/
inductive PyErr : Type
  | attributeError (cls : String) (attr : String)
  | typeError (msg : String)
  | valueError (msg : String)
  | keyError (key : String)
  | nameError (name : String)
deriving DecidableEq, Repr

/-- Claim support: `str(e)` for an exception, as recorded into
`Workflow.error_message` by `update_state(FAILED, str(e))`.  The text is an
abbreviation of the CPython rendering that keeps the class and name. -/
def PyErr.str : PyErr → String
  | .attributeError cls attr => cls ++ " has no attribute " ++ attr
  | .typeError msg => msg
  | .valueError msg => msg
  | .keyError key => key
  | .nameError name => "name " ++ name ++ " is not defined"

/-- Claim support: is the exception a `TypeError`? -/
def PyErr.isTypeError : PyErr → Bool
  | .typeError _ => true
  | _ => false

/-- Claim support: JSON-serializable Python values, as produced by
`Workflow.to_dict` / consumed by `Workflow.from_dict`.  A Python `dict` is an
insertion-ordered association list.  `json.dump` followed by `json.load`
round-trips every value of this shape unchanged, so the durable record file is
modelled as holding the `PyVal` itself. -/
inductive PyVal : Type
  | none
  | str (s : String)
  | int (n : Int)
  | bool (b : Bool)
  | list (xs : List PyVal)
  | dict (kvs : List (String × PyVal))
deriving Inhabited

/-- Claim support: Python truthiness for the values above (`if data.get(...)`). -/
def PyVal.truthy : PyVal → Bool
  | .none => false
  | .str s => s != ""
  | .int n => n != 0
  | .bool b => b
  | .list xs => !xs.isEmpty
  | .dict kvs => !kvs.isEmpty

/-- models.py 10-22: the `WorkflowState` enum.  Exactly these eleven members
are declared; in particular there is no `REVIEWING`, `REVIEW_BLOCKED` or
`NEEDS_REWORK` member even though `workflow_manager.py` refers to them. -/
inductive WorkflowState : Type
  | PENDING
  | FETCHING_TICKET
  | PLANNING
  | PLANNING_BLOCKED
  | PLANNED
  | EXECUTING
  | EXECUTION_BLOCKED
  | CREATING_PR
  | COMPLETED
  | FAILED
  | CANCELLED
deriving DecidableEq, Repr

/-- models.py 12-22: the `.value` string of each `WorkflowState` member. -/
def WorkflowState.value : WorkflowState → String
  | .PENDING => "pending"
  | .FETCHING_TICKET => "fetching_ticket"
  | .PLANNING => "planning"
  | .PLANNING_BLOCKED => "planning_blocked"
  | .PLANNED => "planned"
  | .EXECUTING => "executing"
  | .EXECUTION_BLOCKED => "execution_blocked"
  | .CREATING_PR => "creating_pr"
  | .COMPLETED => "completed"
  | .FAILED => "failed"
  | .CANCELLED => "cancelled"

/-- Python `WorkflowState(v)`: enum lookup by value, `ValueError` on anything
that is not one of the eleven declared values (models.py 10-22). -/
def WorkflowState.fromValue : PyVal → Except PyErr WorkflowState
  | .str "pending" => .ok .PENDING
  | .str "fetching_ticket" => .ok .FETCHING_TICKET
  | .str "planning" => .ok .PLANNING
  | .str "planning_blocked" => .ok .PLANNING_BLOCKED
  | .str "planned" => .ok .PLANNED
  | .str "executing" => .ok .EXECUTING
  | .str "execution_blocked" => .ok .EXECUTION_BLOCKED
  | .str "creating_pr" => .ok .CREATING_PR
  | .str "completed" => .ok .COMPLETED
  | .str "failed" => .ok .FAILED
  | .str "cancelled" => .ok .CANCELLED
  | _ => .error (.valueError "is not a valid WorkflowState")

/-- Python attribute access `WorkflowState.<name>`: member lookup by name on
the enum type.  Only the eleven members declared in models.py 12-22 resolve;
any other name (for example `REVIEWING`, used at workflow_manager.py:317)
raises `AttributeError`. -/
def WorkflowState.byName (name : String) : Except PyErr WorkflowState :=
  if name = "PENDING" then .ok .PENDING
  else if name = "FETCHING_TICKET" then .ok .FETCHING_TICKET
  else if name = "PLANNING" then .ok .PLANNING
  else if name = "PLANNING_BLOCKED" then .ok .PLANNING_BLOCKED
  else if name = "PLANNED" then .ok .PLANNED
  else if name = "EXECUTING" then .ok .EXECUTING
  else if name = "EXECUTION_BLOCKED" then .ok .EXECUTION_BLOCKED
  else if name = "CREATING_PR" then .ok .CREATING_PR
  else if name = "COMPLETED" then .ok .COMPLETED
  else if name = "FAILED" then .ok .FAILED
  else if name = "CANCELLED" then .ok .CANCELLED
  else .error (.attributeError "WorkflowState" name)

/-- models.py 25-28: the `AgentType` enum. -/
inductive AgentType : Type
  | CLAUDE
  | CODEX
deriving DecidableEq, Repr

/-- models.py 27-28: the `.value` string of each `AgentType` member. -/
def AgentType.value : AgentType → String
  | .CLAUDE => "claude"
  | .CODEX => "codex"

/-- Python `AgentType(v)`: enum lookup by value (models.py 25-28). -/
def AgentType.fromValue : PyVal → Except PyErr AgentType
  | .str "claude" => .ok .CLAUDE
  | .str "codex" => .ok .CODEX
  | _ => .error (.valueError "is not a valid AgentType")

/-- models.py 31-44: the `BlockInfo` dataclass.  `question` is annotated
`str` in the source but the annotation is not enforced: the monitor passes
`agent_status.question`, which may be `None`, so the field is modelled as
optional. -/
structure BlockInfo : Type where
  reason : String
  question : Option String
  options : Option (List String)
  blocked_at : String
deriving DecidableEq, Repr

/-- models.py 31-37: the declared field names of `BlockInfo`, in order. -/
def BlockInfo.fieldNames : List String :=
  ["reason", "question", "options", "blocked_at"]

/-- models.py 47-89: the declared fields of the `Workflow` dataclass, in
declaration order.  Note that `review_model`, `max_review_iterations`,
`review_iteration`, `review_feedback`, `container_id` and `container_name`
are **not** declared, even though `workflow_manager.py` and `cli.py` use all
of them. -/
structure Workflow : Type where
  id : String
  linear_ticket_id : String
  state : WorkflowState
  created_at : String
  updated_at : String
  planner_model : AgentType
  executor_model : AgentType
  repo_url : String
  base_branch : String
  branch_name : String
  workflow_dir : String
  plan_file_path : Option String
  pr_url : Option String
  pr_number : Option Int
  planner_container_id : Option String
  executor_container_id : Option String
  block_info : Option BlockInfo
  human_response : Option String
  error_message : Option String
  retry_count : Int
  ticket_title : Option String
  ticket_description : Option String
  ticket_assignee : Option String
  ticket_project : Option String
deriving DecidableEq, Repr

/-- models.py 47-89: the declared field names of `Workflow`, in order. -/
def Workflow.fieldNames : List String :=
  ["id", "linear_ticket_id", "state", "created_at", "updated_at",
   "planner_model", "executor_model", "repo_url", "base_branch",
   "branch_name", "workflow_dir", "plan_file_path", "pr_url", "pr_number",
   "planner_container_id", "executor_container_id", "block_info",
   "human_response", "error_message", "retry_count", "ticket_title",
   "ticket_description", "ticket_assignee", "ticket_project"]

/-- models.py 115-120: `Workflow.update_state`.  Sets the new state,
refreshes `updated_at` (the wall clock is passed in as `now`), and records
the error message only when it is truthy (`if error_message:`). -/
def Workflow.update_state (w : Workflow) (new_state : WorkflowState)
    (error_message : Option String) (now : String) : Workflow :=
  let w := { w with state := new_state, updated_at := now }
  match error_message with
  | some m => if m = "" then w else { w with error_message := some m }
  | none => w

/-- models.py 122-125: `Workflow.set_blocked`.  Creates a fresh `BlockInfo`
(the `blocked_at` default factory reads the clock, passed in as `now`) and
clears `human_response`. -/
def Workflow.set_blocked (w : Workflow) (reason : String)
    (question : Option String) (options : Option (List String))
    (now : String) : Workflow :=
  { w with
    block_info := some { reason := reason, question := question,
                         options := options, blocked_at := now }
    human_response := none }

/-- models.py 127-130: `Workflow.set_unblocked`.  Records the human response
and clears `block_info`. -/
def Workflow.set_unblocked (w : Workflow) (response : String) : Workflow :=
  { w with human_response := some response, block_info := none }

/-- models.py 132-134: `Workflow.is_blocked` - only `PLANNING_BLOCKED` and
`EXECUTION_BLOCKED` count as blocked. -/
def Workflow.is_blocked (w : Workflow) : Bool :=
  w.state = WorkflowState.PLANNING_BLOCKED ∨
    w.state = WorkflowState.EXECUTION_BLOCKED

/-- models.py 136-138: `Workflow.is_terminal`. -/
def Workflow.is_terminal (w : Workflow) : Bool :=
  w.state = WorkflowState.COMPLETED ∨ w.state = WorkflowState.FAILED ∨
    w.state = WorkflowState.CANCELLED

/-- models.py 141-148: the `AgentStatus` dataclass (contents of the status
slot `.workflow-status.json`). -/
structure AgentStatus : Type where
  status : String
  message : Option String
  question : Option String
  options : Option (List String)
  output_file : Option String
deriving DecidableEq, Repr

/-- Claim support: render an optional string the way `asdict` does. -/
def optStr : Option String → PyVal
  | some s => .str s
  | none => .none

/-- Claim support: render an optional int the way `asdict` does. -/
def optInt : Option Int → PyVal
  | some n => .int n
  | none => .none

/-- Claim support: render an optional string list the way `asdict` does. -/
def optStrList : Option (List String) → PyVal
  | some os => .list (os.map PyVal.str)
  | none => .none

/-- models.py 39-40: `BlockInfo.to_dict` (`asdict`): the declared fields in
order, options rendered as a JSON list. -/
def BlockInfo.to_dict (b : BlockInfo) : PyVal :=
  .dict [("reason", .str b.reason),
         ("question", optStr b.question),
         ("options", optStrList b.options),
         ("blocked_at", .str b.blocked_at)]

/-- Claim support: render an optional nested `BlockInfo` the way
`Workflow.to_dict` does (models.py 97-98). -/
def optBlock : Option BlockInfo → PyVal
  | some b => b.to_dict
  | none => .none

/-- models.py 91-99: `Workflow.to_dict`.  `asdict` walks the declared fields
in order; the enum fields are then replaced by their `.value` strings and a
present `block_info` by its own `to_dict` (same content `asdict` already
produced).  Dynamically added attributes such as `container_id` are **not**
part of `asdict` output and are silently dropped. -/
def Workflow.to_dict (w : Workflow) : PyVal :=
  .dict [("id", .str w.id),
         ("linear_ticket_id", .str w.linear_ticket_id),
         ("state", .str w.state.value),
         ("created_at", .str w.created_at),
         ("updated_at", .str w.updated_at),
         ("planner_model", .str w.planner_model.value),
         ("executor_model", .str w.executor_model.value),
         ("repo_url", .str w.repo_url),
         ("base_branch", .str w.base_branch),
         ("branch_name", .str w.branch_name),
         ("workflow_dir", .str w.workflow_dir),
         ("plan_file_path", optStr w.plan_file_path),
         ("pr_url", optStr w.pr_url),
         ("pr_number", optInt w.pr_number),
         ("planner_container_id", optStr w.planner_container_id),
         ("executor_container_id", optStr w.executor_container_id),
         ("block_info", optBlock w.block_info),
         ("human_response", optStr w.human_response),
         ("error_message", optStr w.error_message),
         ("retry_count", .int w.retry_count),
         ("ticket_title", optStr w.ticket_title),
         ("ticket_description", optStr w.ticket_description),
         ("ticket_assignee", optStr w.ticket_assignee),
         ("ticket_project", optStr w.ticket_project)]

/-- Python `data[k]` on a dict: `KeyError` when the key is absent. -/
def getKey (kvs : List (String × PyVal)) (k : String) : Except PyErr PyVal :=
  match kvs.lookup k with
  | some v => .ok v
  | Option.none => .error (.keyError k)

/-- Claim support: expect a JSON string.  Python itself would defer such a
type mismatch (the untyped constructor accepts anything); on dictionaries
produced by `to_dict` - the domain of the round-trip claim - the behaviours
coincide. -/
def asStr : PyVal → Except PyErr String
  | .str s => .ok s
  | _ => .error (.typeError "expected str")

/-- Claim support: expect a string or `None` (optional field). -/
def asOptStr : PyVal → Except PyErr (Option String)
  | .str s => .ok (some s)
  | .none => .ok none
  | _ => .error (.typeError "expected str or None")

/-- Claim support: expect an int. -/
def asInt : PyVal → Except PyErr Int
  | .int n => .ok n
  | _ => .error (.typeError "expected int")

/-- Claim support: expect an int or `None`. -/
def asOptInt : PyVal → Except PyErr (Option Int)
  | .int n => .ok (some n)
  | .none => .ok none
  | _ => .error (.typeError "expected int or None")

/-- Claim support: expect a list of strings. -/
def asStrList : List PyVal → Except PyErr (List String)
  | [] => .ok []
  | v :: vs => do
      let s ← asStr v
      let ss ← asStrList vs
      .ok (s :: ss)

/-- Claim support: expect a list of strings or `None`. -/
def asOptStrList : PyVal → Except PyErr (Option (List String))
  | .list xs => do
      let ss ← asStrList xs
      .ok (some ss)
  | .none => .ok none
  | _ => .error (.typeError "expected list or None")

/-- Claim support: expect a dict. -/
def asDict : PyVal → Except PyErr (List (String × PyVal))
  | .dict kvs => .ok kvs
  | _ => .error (.typeError "expected dict")

/-- Python dataclass call `Cls(**data)`: every supplied keyword must be a
declared field, otherwise `TypeError` naming the first unexpected keyword. -/
def dataclassCheck (cls : String) (declared kwargs : List String) : Except PyErr Unit :=
  match kwargs.find? (fun k => !(declared.contains k)) with
  | some k => .error (.typeError (cls ++ "() got an unexpected keyword argument " ++ k))
  | Option.none => .ok ()

/-- Claim support: `data.get(k, default)`-style string fetch for a defaulted
dataclass field. -/
def getStrOr (kvs : List (String × PyVal)) (k : String) (d : String) :
    Except PyErr String :=
  match kvs.lookup k with
  | some v => asStr v
  | Option.none => .ok d

/-- Claim support: optional-string fetch for a defaulted dataclass field. -/
def getOptStrOr (kvs : List (String × PyVal)) (k : String) :
    Except PyErr (Option String) :=
  match kvs.lookup k with
  | some v => asOptStr v
  | Option.none => .ok none

/-- Claim support: optional-int fetch for a defaulted dataclass field. -/
def getOptIntOr (kvs : List (String × PyVal)) (k : String) :
    Except PyErr (Option Int) :=
  match kvs.lookup k with
  | some v => asOptInt v
  | Option.none => .ok none

/-- Claim support: int fetch for a defaulted dataclass field. -/
def getIntOr (kvs : List (String × PyVal)) (k : String) (d : Int) :
    Except PyErr Int :=
  match kvs.lookup k with
  | some v => asInt v
  | Option.none => .ok d

/-- Claim support: stands for `datetime.utcnow().isoformat()` produced by a
dataclass default factory when a timestamp key is absent; the clock is opaque
to this development. -/
def defaultTimestamp : String := ""

/-- models.py 42-44: `BlockInfo.from_dict` = `cls(**data)`.  `reason` and
`question` have no defaults; `options` defaults to `None` and `blocked_at`
to a fresh timestamp. -/
def BlockInfo.from_dict (v : PyVal) : Except PyErr BlockInfo := do
  let kvs ← asDict v
  let _ ← dataclassCheck "BlockInfo" BlockInfo.fieldNames (kvs.map Prod.fst)
  let reason ← asStr (← getKey kvs "reason")
  let question ← asOptStr (← getKey kvs "question")
  let options ← asOptStrList (← (match kvs.lookup "options" with
                                 | some v => Except.ok v
                                 | Option.none => Except.ok PyVal.none))
  let blocked_at ← getStrOr kvs "blocked_at" defaultTimestamp
  .ok { reason := reason, question := question, options := options,
        blocked_at := blocked_at }

/-- models.py 101-113: `Workflow.from_dict`.  Converts the enum-valued keys
in place (direct `data[...]` accesses, so `KeyError` when absent), converts a
truthy `block_info`, then performs the dataclass call `cls(**data)` with the
remaining keys, applying the declared defaults for absent keys. -/
def Workflow.from_dict (v : PyVal) : Except PyErr Workflow := do
  let kvs ← asDict v
  let state ← WorkflowState.fromValue (← getKey kvs "state")
  let planner_model ← AgentType.fromValue (← getKey kvs "planner_model")
  let executor_model ← AgentType.fromValue (← getKey kvs "executor_model")
  let block_info ← (match kvs.lookup "block_info" with
                    | some bv =>
                        if bv.truthy then do
                          let b ← BlockInfo.from_dict bv
                          Except.ok (some b)
                        else Except.ok none
                    | Option.none => Except.ok none)
  let _ ← dataclassCheck "Workflow" Workflow.fieldNames (kvs.map Prod.fst)
  let id ← asStr (← getKey kvs "id")
  let linear_ticket_id ← asStr (← getKey kvs "linear_ticket_id")
  let created_at ← getStrOr kvs "created_at" defaultTimestamp
  let updated_at ← getStrOr kvs "updated_at" defaultTimestamp
  let repo_url ← getStrOr kvs "repo_url" ""
  let base_branch ← getStrOr kvs "base_branch" "main"
  let branch_name ← getStrOr kvs "branch_name" ""
  let workflow_dir ← getStrOr kvs "workflow_dir" ""
  let plan_file_path ← getOptStrOr kvs "plan_file_path"
  let pr_url ← getOptStrOr kvs "pr_url"
  let pr_number ← getOptIntOr kvs "pr_number"
  let planner_container_id ← getOptStrOr kvs "planner_container_id"
  let executor_container_id ← getOptStrOr kvs "executor_container_id"
  let human_response ← getOptStrOr kvs "human_response"
  let error_message ← getOptStrOr kvs "error_message"
  let retry_count ← getIntOr kvs "retry_count" 0
  let ticket_title ← getOptStrOr kvs "ticket_title"
  let ticket_description ← getOptStrOr kvs "ticket_description"
  let ticket_assignee ← getOptStrOr kvs "ticket_assignee"
  let ticket_project ← getOptStrOr kvs "ticket_project"
  .ok { id := id, linear_ticket_id := linear_ticket_id, state := state,
        created_at := created_at, updated_at := updated_at,
        planner_model := planner_model, executor_model := executor_model,
        repo_url := repo_url, base_branch := base_branch,
        branch_name := branch_name, workflow_dir := workflow_dir,
        plan_file_path := plan_file_path, pr_url := pr_url,
        pr_number := pr_number, planner_container_id := planner_container_id,
        executor_container_id := executor_container_id,
        block_info := block_info, human_response := human_response,
        error_message := error_message, retry_count := retry_count,
        ticket_title := ticket_title, ticket_description := ticket_description,
        ticket_assignee := ticket_assignee, ticket_project := ticket_project }

/-- Claim support: persistence and externally visible effects of the
orchestrator, recorded in order.  `mutate` marks an in-place mutation of the
in-memory record (carrying the record after the mutation); `save` marks
`WorkflowManager._save_workflow` (which serializes `to_dict` of the declared
fields); the remaining constructors are the externally visible actions named
by the specification: launching an agent in the container, updating the
Linear tracker, writing the resume slot, tearing down the container, and
clearing the status/resume slots. -/
inductive Ev : Type
  | mutate (w : Workflow)
  | save (w : Workflow)
  | writeTicketFile
  | execAgent
  | linearComment
  | linearSetState
  | writeResume (response : String)
  | stopContainer
  | removeContainer
  | clearStatus
deriving DecidableEq, Repr

/-- Claim support: the externally visible actions among the events, exactly
the ones the specification lists for the ordering guarantee (process launch,
external-tracker update, resume-slot write, process teardown). -/
def Ev.isExternal : Ev → Bool
  | .execAgent => true
  | .linearComment => true
  | .linearSetState => true
  | .writeResume _ => true
  | .stopContainer => true
  | .removeContainer => true
  | _ => false

/-- Claim support: the writer/except monad in which the embedded Python
runs: a computation yields the trace of events emitted so far together with
either a result or the exception that escaped. -/
def M (α : Type) : Type := List Ev × Except PyErr α

/-- Claim support: sequencing in `M`; an exception short-circuits but the
events already emitted remain on the trace. -/
def M.bind {α β : Type} : M α → (α → M β) → M β
  | (tr, .error e), _ => (tr, .error e)
  | (tr, .ok a), f => (tr ++ (f a).1, (f a).2)

instance : Monad M where
  pure a := ([], .ok a)
  bind := M.bind

/-- Claim support: emit one event. -/
def emit (e : Ev) : M Unit := ([e], .ok ())

/-- Claim support: raise a Python exception. -/
def pyRaise {α : Type} (e : PyErr) : M α := ([], .error e)

/-- Claim support: run a fallible pure step (an attribute/member lookup or a
parse) inside `M`. -/
def liftE {α : Type} (x : Except PyErr α) : M α := ([], x)

/-- Python `try ... except Exception as e: ...`: the handler receives the
exception; events emitted before the exception stay on the trace.  In every
embedded handler below the failing step is the first statement of its `try`
body, so no in-place mutation precedes the exception and closing over the
pre-try record is faithful. -/
def pytry {α : Type} (body : M α) (handler : PyErr → M α) : M α :=
  match body with
  | (tr, .error e) => (tr ++ (handler e).1, (handler e).2)
  | (tr, .ok a) => (tr, .ok a)

/-- Claim support: the records persisted by a trace, in order. -/
def savedRecords (tr : List Ev) : List Workflow :=
  tr.filterMap (fun e => match e with | .save w => some w | _ => none)

/-- Claim support: one step of the persistence-ordering check.  The state is
(still ok, an un-persisted mutation is pending).  A mutation sets the pending
flag, a save clears it, and an externally visible action while a mutation is
pending violates the ordering guarantee. -/
def persistStep : Bool × Bool → Ev → Bool × Bool
  | (ok, _), .mutate _ => (ok, true)
  | (ok, _), .save _ => (ok, false)
  | (ok, pending), e => if e.isExternal then (ok && !pending, pending) else (ok, pending)

/-- Claim support: a trace satisfies the specification's ordering guarantee
when every externally visible action is preceded by the persistence of every
earlier state mutation. -/
def persistOk (tr : List Ev) : Bool :=
  (tr.foldl persistStep (true, false)).1

/-- config.py 10-45: the `OrchestratorConfig` dataclass.  These are all of
its declared fields; in particular `default_reviewer`,
`max_review_iterations` and `review_enabled` - all read by
`workflow_manager.py` - are not among them. -/
structure OrchestratorConfig : Type where
  linear_api_key : String
  linear_team_id : Option String := none
  repo_url : String := ""
  base_branch : String := "main"
  default_planner : String := "codex"
  default_executor : String := "claude"
  docker_image : String := "llm-docker-claude-code:latest"
  workspace_base : String := "/workspace"
  workflows_dir : String := "./workflows"
  db_path : String := "./workflow.db"
  planning_timeout : Int := 30
  execution_timeout : Int := 120
  container_check_interval : Int := 5
  slack_webhook_url : Option String := none
  notify_on_block : Bool := true
  notify_on_complete : Bool := true
  github_token : Option String := none
deriving DecidableEq, Repr

/-- config.py 10-45: the declared field names of `OrchestratorConfig`. -/
def OrchestratorConfig.fieldNames : List String :=
  ["linear_api_key", "linear_team_id", "repo_url", "base_branch",
   "default_planner", "default_executor", "docker_image", "workspace_base",
   "workflows_dir", "db_path", "planning_timeout", "execution_timeout",
   "container_check_interval", "slack_webhook_url", "notify_on_block",
   "notify_on_complete", "github_token"]

/-- Python attribute access `self.config.<attr>`: a plain dataclass has no
`__getattr__`, so an attribute outside the declared fields raises
`AttributeError`.  (Nothing in the source ever sets extra attributes on the
config object, and `from_yaml`/`from_env` both go through the dataclass
constructor.) -/
def OrchestratorConfig.attrLookup (attr : String) : Except PyErr Unit :=
  if OrchestratorConfig.fieldNames.contains attr then .ok ()
  else .error (.attributeError "OrchestratorConfig" attr)

/-- docker_manager.py 14-286: the methods defined on `DockerManager`, in
order of definition (besides `__init__`).  `start_workflow_container` and
`exec_agent_in_container`, both called by `workflow_manager.py`, and
`start_interactive_session` / `open_shell_in_container`, called by `cli.py`,
are not among them. -/
def DockerManager.methods : List String :=
  ["start_agent_container", "get_container_logs", "follow_logs",
   "is_container_running", "get_container_status", "get_container_exit_code",
   "stop_container", "remove_container", "check_agent_status",
   "write_agent_response", "clear_status_files", "wait_for_container",
   "_wait_for_resume"]

/-- Python attribute access `self.docker_manager.<name>` for a method call:
resolving a name that `DockerManager` does not define raises
`AttributeError` before any argument is evaluated. -/
def DockerManager.methodLookup (name : String) : Except PyErr Unit :=
  if DockerManager.methods.contains name then .ok ()
  else .error (.attributeError "DockerManager" name)

/-- docker_manager.py 223-232: `DockerManager.clear_status_files` deletes the
status slot (`.workflow-status.json`) and the resume slot
(`.workflow-resume.json`).  The method exists - the claim on slot clearing is
about whether the orchestrator ever calls it. -/
def DockerManager.clear_status_files : M Unit := emit Ev.clearStatus

/-- docker_manager.py 205-221: `DockerManager.write_agent_response` writes the
human response into the resume slot. -/
def DockerManager.write_agent_response (response : String) : M Unit :=
  emit (Ev.writeResume response)

/-- Claim support: one poll tick of `DockerManager.wait_for_container`
(docker_manager.py 234-274), abstracting the two reads it performs: either
the container is no longer running (`exited`), or a status file with the
given contents is present (`file`), or no status file is present (`clean`,
yielding `running`).  A `blocked` status additionally makes the generator
wait on the resume slot before continuing to poll. -/
inductive Tick : Type
  | exited
  | file (st : AgentStatus)
  | clean
deriving DecidableEq, Repr

/-- Claim support: the in-memory `Workflow` object as the manager sees it:
the declared dataclass fields plus the attributes `workflow_manager.py` adds
dynamically with plain assignment (`workflow.container_id = ...`,
`workflow.container_name = ...` at lines 105-106).  `none` means the
attribute was never assigned, so reading it raises `AttributeError`.
Objects produced by `Workflow.from_dict` (every record loaded from disk)
carry only the declared fields - `asdict`-based persistence drops dynamic
attributes - so for them both extras are `none`. -/
structure WorkflowObj : Type where
  w : Workflow
  container_id : Option String := none
  container_name : Option String := none
deriving DecidableEq, Repr

/-- Python attribute read `workflow.container_id`: the field is not declared
on the dataclass, so the read succeeds only if the attribute was assigned on
this very object earlier in the process. -/
def WorkflowObj.getContainerId (o : WorkflowObj) : Except PyErr String :=
  match o.container_id with
  | some c => .ok c
  | none => .error (.attributeError "Workflow" "container_id")

/-- Claim support: `workflow.update_state(...)` as an in-place mutation,
recorded on the trace. -/
def WorkflowObj.updateStateM (o : WorkflowObj) (s : WorkflowState)
    (msg : Option String) (now : String) : M WorkflowObj :=
  let o := { o with w := o.w.update_state s msg now }
  ([Ev.mutate o.w], .ok o)

/-- Claim support: `workflow.set_blocked(...)` as an in-place mutation. -/
def WorkflowObj.setBlockedM (o : WorkflowObj) (reason : String)
    (question : Option String) (options : Option (List String))
    (now : String) : M WorkflowObj :=
  let o := { o with w := o.w.set_blocked reason question options now }
  ([Ev.mutate o.w], .ok o)

/-- Claim support: `workflow.set_unblocked(response)` as an in-place
mutation. -/
def WorkflowObj.setUnblockedM (o : WorkflowObj) (response : String) :
    M WorkflowObj :=
  let o := { o with w := o.w.set_unblocked response }
  ([Ev.mutate o.w], .ok o)

/-- workflow_manager.py 304: `workflow.pr_url = pr_url` as an in-place
mutation. -/
def WorkflowObj.setPrUrlM (o : WorkflowObj) (url : String) : M WorkflowObj :=
  let o := { o with w := { o.w with pr_url := some url } }
  ([Ev.mutate o.w], .ok o)

/-- workflow_manager.py 589-595: `WorkflowManager._save_workflow` writes
`workflow.to_dict()` to the record's `metadata.json`. -/
def WorkflowObj.saveW (o : WorkflowObj) : M Unit := emit (Ev.save o.w)

/-- Python `x or default` on an optional string (`agent_status.message or
"Executor needs input"`): the default is used when the value is `None` or
empty. -/
def pyOr (s : Option String) (d : String) : String :=
  match s with
  | some v => if v = "" then d else v
  | none => d

/-- Claim support: truthiness of an optional string
(`if not workflow.pr_url:`). -/
def optTruthy : Option String → Bool
  | some s => s != ""
  | none => false

/-- Claim support: drop all but the last `n` characters
(Python `logs[-1000:]`). -/
def strTakeRight (s : String) (n : Nat) : String :=
  String.mk (s.toList.drop (s.toList.length - n))

/-- Claim support: strip an expected literal prefix from a character list. -/
def stripPrefixChars : List Char → List Char → Option (List Char)
  | [], cs => some cs
  | _, [] => none
  | p :: ps, c :: cs => if c = p then stripPrefixChars ps cs else none

/-- workflow_manager.py 779-785: one anchored attempt of the pattern
`https://github\.com/[^/]+/[^/]+/pull/\d+`.  Both `[^/]+` runs and the final
`\d+` are greedy; because `[^/]+` can never consume the `/` that must follow
it, the maximal run is the only viable one and no backtracking arises, so
span-based matching is exact. -/
def matchPrAt (cs : List Char) : Option (List Char) :=
  match stripPrefixChars "https://github.com/".toList cs with
  | none => none
  | some r0 =>
    let p1 := List.span (fun c => c != '/') r0
    if p1.1.isEmpty then none
    else
      match p1.2 with
      | '/' :: r2 =>
        let p2 := List.span (fun c => c != '/') r2
        if p2.1.isEmpty then none
        else
          match stripPrefixChars "/pull/".toList p2.2 with
          | none => none
          | some r4 =>
            let p3 := List.span Char.isDigit r4
            if p3.1.isEmpty then none
            else some ("https://github.com/".toList ++ p1.1 ++ ['/'] ++ p2.1
                        ++ "/pull/".toList ++ p3.1)
      | _ => none

/-- workflow_manager.py 779-785: `re.search` scans for the leftmost match. -/
def searchPrUrl : List Char → Option (List Char)
  | [] => none
  | c :: rest =>
    match matchPrAt (c :: rest) with
    | some m => some m
    | none => searchPrUrl rest

/-- workflow_manager.py 779-785: `_extract_pr_url_from_logs`. -/
def extractPrUrlFromLogs (logs : String) : Option String :=
  (searchPrUrl logs.toList).map String.mk

/-- workflow_manager.py 787-803: `_update_linear_ticket`.  Returns
immediately when there is no PR URL; otherwise posts a comment and updates
the issue state on the external tracker (its own `try` swallows tracker
failures, which are logged only). -/
def updateLinearTicket (w : Workflow) : M Unit :=
  if optTruthy w.pr_url then do
    emit Ev.linearComment
    emit Ev.linearSetState
  else pure ()

/-- workflow_manager.py 1-15: the module-level names bound by the imports of
`workflow_manager.py` (plus the module logger and the class itself).  `time`
is not among them: the module never imports `time`, although
`_create_pr_and_complete` calls `time.sleep(5)` at line 479. -/
def workflowManagerGlobals : List String :=
  ["json", "logging", "uuid", "Path", "Optional", "Dict", "Any", "List",
   "datetime", "Workflow", "WorkflowState", "AgentType", "BlockInfo",
   "OrchestratorConfig", "LinearClient", "DockerManager", "logger",
   "WorkflowManager"]

/-- Python global-name resolution inside `workflow_manager.py`: an unbound
name raises `NameError`. -/
def moduleGlobalLookup (name : String) : Except PyErr Unit :=
  if workflowManagerGlobals.contains name then .ok ()
  else .error (.nameError name)

/-- workflow_manager.py 240-311: the loop body of `_monitor_execution`, fused
with the yields of `wait_for_container` (docker_manager.py 243-274).  One
`Tick` is one poll observation; `blocked` and `running` observations continue
polling, `complete`, `error` and `exited` break the loop.  An exhausted tick
list models a monitor still polling a live container; `logs` models the
container log text read by `get_container_logs`. -/
def monitorExecutionGo : WorkflowObj → List Tick → String → String → M WorkflowObj
  | o, [], _, _ => ([], .ok o)
  | o, Tick.exited :: _, logs, now =>
    -- 296-311: container exited; scan the logs for a PR URL
    (match extractPrUrlFromLogs logs with
     | some url => do
        let o ← o.updateStateM .COMPLETED none now
        let o ← o.setPrUrlM url
        -- 305: the external tracker is updated here, BEFORE the save at 310
        updateLinearTicket o.w
        o.saveW
        pure o
     | none => do
        let o ← o.updateStateM .FAILED
                  (some ("Executor failed. Logs:\n" ++ strTakeRight logs 1000)) now
        o.saveW
        pure o)
  | o, Tick.file st :: rest, logs, now =>
    if st.status = "blocked" then do
      -- 252-260
      let o ← o.updateStateM .EXECUTION_BLOCKED none now
      let o ← o.setBlockedM (pyOr st.message "Executor needs input")
                st.question st.options now
      o.saveW
      -- the generator then waits on the resume slot and polling continues
      monitorExecutionGo o rest logs now
    else if st.status = "complete" then do
      -- 262-266: `self.config.review_enabled` is read first; the config
      -- dataclass declares no such field, so the branch raises here
      let _ ← liftE (OrchestratorConfig.attrLookup "review_enabled")
      -- unreachable: review dispatch (267-268), PR extraction and COMPLETED
      -- transition (270-281), and container teardown (283-286) never run
      pure o
    else if st.status = "error" then do
      -- 290-294
      let o ← o.updateStateM .FAILED st.message now
      o.saveW
      pure o
    else
      -- a "working" status (or any other value) falls through to a
      -- `running` yield and polling continues
      monitorExecutionGo o rest logs now
  | o, Tick.clean :: rest, logs, now =>
    -- no status file: `running`, keep polling
    monitorExecutionGo o rest logs now

/-- workflow_manager.py 240-311: `_monitor_execution`.  Line 242 reads the
dynamic attribute `workflow.container_id` before the loop. -/
def monitorExecution (o : WorkflowObj) (ticks : List Tick)
    (logs now : String) : M WorkflowObj := do
  let _cid ← liftE o.getContainerId
  monitorExecutionGo o ticks logs now

/-- workflow_manager.py 211-238: `_run_execution_phase`: transition to
`EXECUTING`, persist, then try to launch the executor and monitor it,
catching any failure into a persisted `FAILED` transition.  The prompt
assembly at line 219 (`_get_executor_prompt`) is a pure template read,
modelled as total. -/
def runExecutionPhase (o : WorkflowObj) (ticks : List Tick)
    (logs now : String) : M WorkflowObj := do
  let o ← o.updateStateM .EXECUTING none now
  o.saveW
  pytry
    (do
      -- 223: `self.docker_manager.exec_agent_in_container` - DockerManager
      -- defines no such method, so the name lookup raises before any launch
      let _ ← liftE (DockerManager.methodLookup "exec_agent_in_container")
      -- unreachable: the detached launch and the monitor loop never run
      emit Ev.execAgent
      monitorExecution o ticks logs now)
    (fun e => do
      -- 233-236
      let o ← o.updateStateM .FAILED (some e.str) now
      o.saveW
      pure o)

/-- workflow_manager.py 313-341: `_run_review_phase`.  Its first statement
(line 317, before the `try`) resolves `WorkflowState.REVIEWING`, a member
models.py does not declare, so the call raises `AttributeError` and nothing
is caught: the iteration increment (line 318, itself reading the undeclared
field `review_iteration`), the save (319) and the `try` block that would
launch and monitor the reviewer (324-339) never run. -/
def runReviewPhase (o : WorkflowObj) (now : String) : M WorkflowObj := do
  let st ← liftE (WorkflowState.byName "REVIEWING")
  -- unreachable below
  let o ← o.updateStateM st none now
  o.saveW
  pure o

/-- workflow_manager.py 461-503: `_create_pr_and_complete`.  Line 463 reads
the dynamic `workflow.container_id` outside the `try`; inside the `try`, the
first step (line 471) resolves `self.docker_manager.exec_agent_in_container`,
which does not exist, and the handler (500-503) converts the exception into
a persisted `FAILED` transition.  Had the launch existed, line 479 would
still raise `NameError` on the unimported `time` module.  The PR prompt
assembly at 467 is a pure template read, modelled as total. -/
def createPrAndComplete (o : WorkflowObj) (now : String) : M WorkflowObj := do
  let _cid ← liftE o.getContainerId
  pytry
    (do
      let _ ← liftE (DockerManager.methodLookup "exec_agent_in_container")
      -- unreachable: the launch, the sleep, the log scan, the COMPLETED
      -- transition, the tracker update, the save and the teardown never run
      emit Ev.execAgent
      let _ ← liftE (moduleGlobalLookup "time")
      pure o)
    (fun e => do
      let o ← o.updateStateM .FAILED (some e.str) now
      o.saveW
      pure o)

/-- workflow_manager.py 505-528: `respond_to_workflow`.  Rejects (raises
`ValueError`) unless the record is blocked; otherwise writes the resume slot,
records the response, transitions `PLANNING_BLOCKED to PLANNING` /
`EXECUTION_BLOCKED to EXECUTING`, and persists. -/
def respondToWorkflow (o : WorkflowObj) (response now : String) :
    M WorkflowObj := do
  if o.w.is_blocked = false then
    pyRaise (.valueError ("Workflow " ++ o.w.id ++ " is not blocked"))
  else do
    -- 515: the resume slot is written BEFORE the record is mutated and saved
    DockerManager.write_agent_response response
    -- 518
    let o ← o.setUnblockedM response
    -- 520-524
    let o ←
      if o.w.state = WorkflowState.PLANNING_BLOCKED then
        o.updateStateM .PLANNING none now
      else if o.w.state = WorkflowState.EXECUTION_BLOCKED then
        o.updateStateM .EXECUTING none now
      else pure o
    -- 526
    o.saveW
    pure o

/-- cli.py 270-299: `cmd_cancel`.  The workflow comes back from
`load_workflow`, i.e. through `Workflow.from_dict`, so its object carries
only declared fields: the read of `workflow.container_id` at line 285 (which
guards the container teardown, outside any `try`) raises `AttributeError`
for every stored record.  The `CANCELLED` transition at 294-295 is never
reached.  `stored` is the load result (`None` when no record file exists). -/
def cmdCancel (stored : Option Workflow) (now : String) : M Int := do
  match stored with
  | none =>
    -- 276-278: not found
    pure 1
  | some w =>
    let o : WorkflowObj := { w := w }
    if o.w.is_terminal then
      -- 280-282: already terminal, rejected, record untouched
      pure 1
    else do
      -- 285
      let cid ← liftE o.getContainerId
      -- unreachable: best-effort teardown (286-291), then CANCELLED + save
      let _ ←
        if cid != "" then do
          pytry (do
              emit Ev.stopContainer
              emit Ev.removeContainer
              pure ())
            (fun _ => pure ())
        else pure ()
      let o ← o.updateStateM .CANCELLED none now
      o.saveW
      pure 0

/-- linear_client.py 37-71 result shape as used by `create_workflow`: the
fetched Linear issue fields the manager reads. -/
structure Issue : Type where
  identifier : String
  title : String
  description : Option String := none
  assignee_name : Option String := none
  project_name : Option String := none
deriving DecidableEq, Repr

/-- workflow_manager.py 630-634: sanitize the issue title for a branch name:
lower-case, keep alphanumerics, spaces and hyphens, join the whitespace-split
words with hyphens, truncate to 50 characters.  (`isalnum` is modelled on
ASCII.) -/
def sanitizeTitlePart (title : String) : String :=
  let kept := (title.toList.map Char.toLower).filter
    (fun c => c.isAlphanum || c = ' ' || c = '-')
  let parts := (String.mk kept).splitOn " " |>.filter (fun s => s ≠ "")
  (String.intercalate "-" parts).take 50

/-- workflow_manager.py 626-636: `_generate_branch_name`. -/
def generateBranchName (issue : Issue) : String :=
  "feature/" ++ issue.identifier ++ "-" ++ sanitizeTitlePart issue.title

/-- workflow_manager.py 61-77: the keyword-argument names passed to
`Workflow(...)` by `create_workflow`, in call order.  `review_model` and
`max_review_iterations` are not declared fields of the dataclass. -/
def createWorkflowKwargNames : List String :=
  ["id", "linear_ticket_id", "state", "planner_model", "executor_model",
   "review_model", "repo_url", "base_branch", "branch_name", "workflow_dir",
   "max_review_iterations", "ticket_title", "ticket_description",
   "ticket_assignee", "ticket_project"]

/-- workflow_manager.py 28-86: `create_workflow`.  The uuid hex (line 39) and
the wall clock are parameters; the Linear fetch (line 51) is modelled by the
already-fetched `issue` (a failed fetch raises before any of the steps
below).  With no review model supplied, line 47 reads
`self.config.default_reviewer` - not a declared config field - and raises.
With a review model supplied, the `Workflow(...)` call at 61-77 evaluates its
keyword arguments left to right, and `max_review_iterations=
self.config.max_review_iterations` (line 72) raises the same way before the
dataclass call is made.  Either way neither `_save_ticket_details` (line 80)
nor `_save_workflow` (line 83) runs and no record is ever persisted. -/
def createWorkflow (cfg : OrchestratorConfig) (linear_ticket_id : String)
    (planner_model executor_model review_model : Option AgentType)
    (issue : Issue) (hex8 now : String) : M Workflow := do
  let workflow_id := "wf_" ++ hex8
  -- 42-45: defaults from config when not specified
  let pm ← match planner_model with
           | some p => pure p
           | none => liftE (AgentType.fromValue (.str cfg.default_planner))
  let em ← match executor_model with
           | some e => pure e
           | none => liftE (AgentType.fromValue (.str cfg.default_executor))
  -- 46-47
  let _rm ← match review_model with
            | some r => pure (some r)
            | none => do
                let _ ← liftE (OrchestratorConfig.attrLookup "default_reviewer")
                -- unreachable: the lookup above always raises
                pure none
  -- 54
  let branch_name := generateBranchName issue
  -- 57-58: directory creation is a filesystem effect, not a record save
  let workflow_dir := cfg.workflows_dir ++ "/" ++ workflow_id
  -- 61-77
  let _ ← liftE (OrchestratorConfig.attrLookup "max_review_iterations")
  -- unreachable from here on: were the attribute present, the dataclass call
  -- would reject the undeclared keywords (see createWorkflowKwargNames)
  let _ ← liftE (dataclassCheck "Workflow" Workflow.fieldNames
                  createWorkflowKwargNames)
  let w : Workflow :=
    { id := workflow_id, linear_ticket_id := linear_ticket_id,
      state := .PENDING, created_at := now, updated_at := now,
      planner_model := pm, executor_model := em, repo_url := cfg.repo_url,
      base_branch := cfg.base_branch, branch_name := branch_name,
      workflow_dir := workflow_dir, plan_file_path := none, pr_url := none,
      pr_number := none, planner_container_id := none,
      executor_container_id := none, block_info := none,
      human_response := none, error_message := none, retry_count := 0,
      ticket_title := some issue.title,
      ticket_description := issue.description,
      ticket_assignee := issue.assignee_name,
      ticket_project := issue.project_name }
  emit Ev.writeTicketFile
  emit (Ev.save w)
  pure w

/-- workflow_manager.py 589-595: the durable slot a save leaves behind: the
JSON document `workflow.to_dict()` (JSON dump/load round-trips every value of
this shape unchanged). -/
def saveWorkflowFile (w : Workflow) : PyVal := w.to_dict

/-- workflow_manager.py 597-607: `load_workflow`: `None` when the record file
is absent, otherwise `Workflow.from_dict` of the stored document. -/
def loadWorkflow (stored : Option PyVal) : Except PyErr (Option Workflow) :=
  match stored with
  | none => .ok none
  | some v => do
      let w ← Workflow.from_dict v
      .ok (some w)

/-- Claim support: does a trace persist any record? -/
def hasSave (tr : List Ev) : Bool :=
  tr.any (fun e => match e with | .save _ => true | _ => false)

/-- Claim support: the record invariant direction that the code maintains:
a blocked state implies a present `block_info`. -/
def blockedConsistent (w : Workflow) : Bool :=
  !w.is_blocked || w.block_info.isSome

/-- Claim support: `>>=` on `M` unfolds to `M.bind`. -/
theorem mBindDef {α β : Type} (x : M α) (f : α → M β) :
    x >>= f = M.bind x f := rfl

/-- Claim support: `pure` on `M` is the empty trace. -/
theorem mPureDef {α : Type} (a : α) : (pure a : M α) = ([], .ok a) := rfl

/-- Claim support: `M.bind` on a successful step concatenates traces. -/
theorem mBindOk {α β : Type} (tr : List Ev) (a : α) (f : α → M β) :
    M.bind (tr, .ok a) f = (tr ++ (f a).1, (f a).2) := rfl

/-- Claim support: `M.bind` short-circuits an escaped exception. -/
theorem mBindErr {α β : Type} (tr : List Ev) (e : PyErr) (f : α → M β) :
    M.bind (tr, .error e) f = (tr, .error e) := rfl

/-- Claim support: `Except` bind on a success. -/
theorem exceptBindOk {α β : Type} (a : α) (f : α → Except PyErr β) :
    (Except.ok a : Except PyErr α) >>= f = f a := rfl

/-- Claim support: `Except` bind on an error. -/
theorem exceptBindErr {α β : Type} (e : PyErr) (f : α → Except PyErr β) :
    (Except.error e : Except PyErr α) >>= f = Except.error e := rfl

/-- Claim support: enum round-trip - looking a `WorkflowState` member up by
its own `.value` string recovers the member. -/
theorem workflowState_fromValue_value (s : WorkflowState) :
    WorkflowState.fromValue (.str s.value) = .ok s := by
  cases s <;> rfl

/-- Claim support: enum round-trip for `AgentType`. -/
theorem agentType_fromValue_value (a : AgentType) :
    AgentType.fromValue (.str a.value) = .ok a := by
  cases a <;> rfl

/-- Claim support: parsing a rendered string list recovers the list. -/
theorem asStrList_map (os : List String) :
    asStrList (os.map PyVal.str) = .ok os := by
  induction os with
  | nil => rfl
  | cons s ss ih => simp [asStrList, asStr, ih, List.map, exceptBindOk]

/-- Claim support: parsing a rendered optional string recovers it. -/
theorem asOptStr_optStr (x : Option String) : asOptStr (optStr x) = .ok x := by
  cases x <;> rfl

/-- Claim support: parsing a rendered optional int recovers it. -/
theorem asOptInt_optInt (x : Option Int) : asOptInt (optInt x) = .ok x := by
  cases x <;> rfl

/-- Claim support: parsing a rendered optional string list recovers it. -/
theorem asOptStrList_optStrList (x : Option (List String)) :
    asOptStrList (optStrList x) = .ok x := by
  cases x with
  | none => rfl
  | some os => simp [optStrList, asOptStrList, asStrList_map, exceptBindOk]

/-- Claim support: Python `None` is falsy. -/
theorem truthy_pynone : PyVal.truthy PyVal.none = false := rfl

/-- Claim support: a serialized `BlockInfo` is a non-empty dict, hence
truthy. -/
theorem blockInfo_to_dict_truthy (b : BlockInfo) :
    PyVal.truthy b.to_dict = true := rfl

/-- Claim support: `BlockInfo.from_dict` inverts `BlockInfo.to_dict`. -/
theorem blockInfo_roundtrip (b : BlockInfo) :
    BlockInfo.from_dict b.to_dict = .ok b := by
  cases b with
  | mk reason question options blocked_at =>
    simp +decide [BlockInfo.from_dict, BlockInfo.to_dict, asDict,
      dataclassCheck, getKey, getStrOr, asStr, asOptStr_optStr,
      asOptStrList_optStrList, List.lookup, exceptBindOk, exceptBindErr]

/-- Claim support: `Workflow.from_dict` inverts `Workflow.to_dict` on every
record: every enum value, optional field and nested `BlockInfo` comes back
equal. -/
theorem workflow_roundtrip (w : Workflow) :
    Workflow.from_dict w.to_dict = .ok w := by
  obtain ⟨i1, i2, st, c1, u1, pm, em, r1, b1, b2, w1, p1, p2, p3, p4, p5,
    bi, h1, e1, r2, t1, t2, t3, t4⟩ := w
  cases bi with
  | none =>
    simp +decide [Workflow.from_dict, Workflow.to_dict, asDict,
      dataclassCheck, getKey, getStrOr, getOptStrOr, getOptIntOr, getIntOr,
      asStr, asInt, asOptStr_optStr, asOptInt_optInt,
      workflowState_fromValue_value, agentType_fromValue_value, List.lookup,
      exceptBindOk, exceptBindErr, optBlock, truthy_pynone]
  | some b =>
    simp +decide [Workflow.from_dict, Workflow.to_dict, asDict,
      dataclassCheck, getKey, getStrOr, getOptStrOr, getOptIntOr, getIntOr,
      asStr, asInt, asOptStr_optStr, asOptInt_optInt,
      workflowState_fromValue_value, agentType_fromValue_value, List.lookup,
      exceptBindOk, exceptBindErr, optBlock, blockInfo_to_dict_truthy,
      blockInfo_roundtrip]

/-- Claim support: `update_state` always installs the requested state,
whatever the truthiness of the message. -/
theorem update_state_state (w : Workflow) (s : WorkflowState)
    (msg : Option String) (now : String) :
    (w.update_state s msg now).state = s := by
  cases msg with
  | none => rfl
  | some m => by_cases h : m = "" <;> simp [Workflow.update_state, h]

/-- Claim support: `update_state` never touches `block_info`. -/
theorem update_state_block_info (w : Workflow) (s : WorkflowState)
    (msg : Option String) (now : String) :
    (w.update_state s msg now).block_info = w.block_info := by
  cases msg with
  | none => rfl
  | some m => by_cases h : m = "" <;> simp [Workflow.update_state, h]

/-- Claim support: `blockedConsistent` spelled on the state directly. -/
theorem blockedConsistent_def (w : Workflow) :
    blockedConsistent w =
      (!(decide (w.state = .PLANNING_BLOCKED) ||
          decide (w.state = .EXECUTION_BLOCKED)) || w.block_info.isSome) := by
  by_cases h1 : w.state = WorkflowState.PLANNING_BLOCKED <;>
    by_cases h2 : w.state = WorkflowState.EXECUTION_BLOCKED <;>
      simp [blockedConsistent, Workflow.is_blocked, h1, h2]

/-- Claim support: an empty trace persists nothing. -/
theorem savedRecords_nil : savedRecords [] = [] := rfl

/-- Claim support: `savedRecords` on a cons. -/
theorem savedRecords_cons (e : Ev) (tr : List Ev) :
    savedRecords (e :: tr) =
      (match e with | Ev.save w => [w] | _ => []) ++ savedRecords tr := by
  cases e <;> rfl

/-- Claim support: `savedRecords` distributes over concatenation. -/
theorem savedRecords_append (a b : List Ev) :
    savedRecords (a ++ b) = savedRecords a ++ savedRecords b := by
  simp [savedRecords, List.filterMap_append]

/-- Claim support: every record the execution-monitor loop persists - from
any starting record, any poll observations, any container logs - satisfies
the blocked-implies-block-info direction: the blocked branch installs a
`BlockInfo` in the same step that sets `EXECUTION_BLOCKED`, and every other
persisting branch installs a non-blocked state. -/
theorem monitorGo_blockedConsistent (ticks : List Tick) :
    ∀ (o : WorkflowObj) (logs now : String),
      ∀ w' ∈ savedRecords (monitorExecutionGo o ticks logs now).1,
        blockedConsistent w' = true := by
  induction ticks with
  | nil =>
    intro o logs now w' hw'
    simp [monitorExecutionGo, savedRecords_nil] at hw'
  | cons t rest ih =>
    intro o logs now w' hw'
    cases t with
    | exited =>
      rcases h : extractPrUrlFromLogs logs with _ | url
      · simp [monitorExecutionGo, h, mBindDef, mBindOk, mBindErr, mPureDef,
          WorkflowObj.updateStateM, WorkflowObj.saveW, emit,
          savedRecords_cons, savedRecords_append, savedRecords_nil] at hw'
        subst hw'
        simp [blockedConsistent_def, update_state_state]
      · by_cases hu : url = "" <;>
          · simp [monitorExecutionGo, h, hu, mBindDef, mBindOk, mBindErr,
              mPureDef, WorkflowObj.updateStateM, WorkflowObj.setPrUrlM,
              WorkflowObj.saveW, emit, liftE, updateLinearTicket, optTruthy,
              savedRecords_cons, savedRecords_append, savedRecords_nil] at hw'
            subst hw'
            simp [blockedConsistent_def, update_state_state]
    | file st =>
      by_cases h1 : st.status = "blocked"
      · simp [monitorExecutionGo, h1, mBindDef, mBindOk, mBindErr, mPureDef,
          WorkflowObj.updateStateM, WorkflowObj.setBlockedM,
          WorkflowObj.saveW, emit, savedRecords_cons, savedRecords_append,
          savedRecords_nil] at hw'
        rcases hw' with hw' | hw'
        · subst hw'
          simp [blockedConsistent_def, Workflow.set_blocked,
            update_state_state, update_state_block_info]
        · exact ih _ _ _ _ hw'
      · by_cases h2 : st.status = "complete"
        · simp +decide [monitorExecutionGo, h1, h2, mBindDef, mBindOk,
            mBindErr, mPureDef, liftE, OrchestratorConfig.attrLookup,
            OrchestratorConfig.fieldNames, savedRecords_cons,
            savedRecords_append, savedRecords_nil] at hw'
        · by_cases h3 : st.status = "error"
          · simp [monitorExecutionGo, h1, h2, h3, mBindDef, mBindOk, mBindErr,
              mPureDef, WorkflowObj.updateStateM, WorkflowObj.saveW, emit,
              savedRecords_cons, savedRecords_append, savedRecords_nil] at hw'
            subst hw'
            simp [blockedConsistent_def, update_state_state]
          · simp only [monitorExecutionGo, h1, h2, h3, if_false] at hw'
            exact ih _ _ _ _ hw'
    | clean =>
      simp only [monitorExecutionGo] at hw'
      exact ih _ _ _ _ hw'

/-- Claim support: a trace segment that ends persisted (no pending mutation,
no violation) can be peeled off the front of the ordering check. -/
theorem persistSeg (a b : List Ev)
    (h : a.foldl persistStep (true, false) = (true, false)) :
    persistOk (a ++ b) = persistOk b := by
  simp [persistOk, List.foldl_append, h]

/-- Claim support: the execution-monitor loop satisfies the persist-before-
external-action ordering on every run that never takes the
exited-with-PR-URL branch: the blocked and error branches persist before
emitting anything external, and the complete branch raises before reaching
any external action. -/
theorem monitorGo_persistOk (ticks : List Tick) :
    ∀ (o : WorkflowObj) (logs now : String),
      (Tick.exited ∈ ticks → extractPrUrlFromLogs logs = none) →
      persistOk (monitorExecutionGo o ticks logs now).1 = true := by
  induction ticks with
  | nil => intro o logs now _; rfl
  | cons t rest ih =>
    intro o logs now h
    cases t with
    | exited =>
      have hx : extractPrUrlFromLogs logs = none := h (by simp)
      simp [monitorExecutionGo, hx, mBindDef, mBindOk, mBindErr, mPureDef,
        WorkflowObj.updateStateM, WorkflowObj.saveW, emit, persistOk,
        persistStep]
    | file st =>
      have h' : Tick.exited ∈ rest → extractPrUrlFromLogs logs = none :=
        fun hm => h (by simp [hm])
      by_cases h1 : st.status = "blocked"
      · simp [monitorExecutionGo, h1, mBindDef, mBindOk, mBindErr, mPureDef,
          WorkflowObj.updateStateM, WorkflowObj.setBlockedM,
          WorkflowObj.saveW, emit]
        rw [show ∀ w1 w2 tr, (Ev.mutate w1 :: Ev.mutate w2 :: Ev.save w2 :: tr)
              = [Ev.mutate w1, Ev.mutate w2, Ev.save w2] ++ tr from
            fun _ _ _ => rfl]
        rw [persistSeg]
        · exact ih _ logs now h'
        · rfl
      · by_cases h2 : st.status = "complete"
        · simp +decide [monitorExecutionGo, h1, h2, mBindDef, mBindOk,
            mBindErr, mPureDef, liftE, OrchestratorConfig.attrLookup,
            OrchestratorConfig.fieldNames, persistOk]
        · by_cases h3 : st.status = "error"
          · simp [monitorExecutionGo, h1, h2, h3, mBindDef, mBindOk, mBindErr,
              mPureDef, WorkflowObj.updateStateM, WorkflowObj.saveW, emit,
              persistOk, persistStep]
          · simp only [monitorExecutionGo, h1, h2, h3, if_false]
            exact ih _ logs now h'
    | clean =>
      simp only [monitorExecutionGo]
      exact ih _ logs now fun hm => h (by simp [hm])

/-- Claim support: every record `respond_to_workflow` persists is in a
non-blocked state (the resume transition), so it trivially satisfies the
blocked-implies-block-info direction. -/
theorem respond_saves_blockedConsistent (o : WorkflowObj) (r now : String) :
    ∀ w' ∈ savedRecords (respondToWorkflow o r now).1,
      blockedConsistent w' = true := by
  intro w' hw'
  by_cases hb : o.w.is_blocked = true
  · have hst : o.w.state = WorkflowState.PLANNING_BLOCKED ∨
        o.w.state = WorkflowState.EXECUTION_BLOCKED := by
      simpa [Workflow.is_blocked] using hb
    rcases hst with hst | hst <;>
      · simp [respondToWorkflow, hb, hst, mBindDef, mBindOk, mBindErr,
          mPureDef, DockerManager.write_agent_response, emit,
          WorkflowObj.setUnblockedM, WorkflowObj.updateStateM,
          WorkflowObj.saveW, Workflow.set_unblocked, savedRecords_cons,
          savedRecords_append, savedRecords_nil] at hw'
        subst hw'
        simp [blockedConsistent_def, update_state_state]
  · simp [respondToWorkflow, hb, pyRaise, savedRecords_nil] at hw'

/-- Claim support: the final state of a phase-run result, when no exception
escaped. -/
def mResultState (m : M WorkflowObj) : Option WorkflowState :=
  match m.2 with
  | .ok o => some o.w.state
  | .error _ => none

/-- Claim support: the recorded error message of a phase-run result, when no
exception escaped. -/
def mResultErrMsg (m : M WorkflowObj) : Option String :=
  match m.2 with
  | .ok o => o.w.error_message
  | .error _ => none

/-- Claim support: a concrete `Workflow` record in the `EXECUTING` state. -/
def sampleWorkflow : Workflow :=
  { id := "wf_1", linear_ticket_id := "DEC-1", state := .EXECUTING,
    created_at := "t0", updated_at := "t0", planner_model := .CODEX,
    executor_model := .CLAUDE, repo_url := "r", base_branch := "main",
    branch_name := "b", workflow_dir := "d", plan_file_path := none,
    pr_url := none, pr_number := none, planner_container_id := none,
    executor_container_id := none, block_info := none, human_response := none,
    error_message := none, retry_count := 0, ticket_title := none,
    ticket_description := none, ticket_assignee := none,
    ticket_project := none }

/-- Claim support: the live in-memory object for `sampleWorkflow`, with the
dynamic container attributes assigned as `start_workflow` does. -/
def sampleObj : WorkflowObj :=
  { w := sampleWorkflow, container_id := some "c0",
    container_name := some "workflow-wf_1" }

/-- Claim support: a concrete `BlockInfo`. -/
def sampleBlockInfo : BlockInfo :=
  { reason := "need a decision", question := some "Which auth library?",
    options := some ["A", "B"], blocked_at := "t0" }

/-- Claim support: a stored record in `PLANNING_BLOCKED`, as loaded from
disk (no dynamic attributes). -/
def planningBlockedObj : WorkflowObj :=
  { w :=
      { sampleWorkflow with
        state := .PLANNING_BLOCKED
        block_info := some sampleBlockInfo } }

/-- Claim support: a stored record in `EXECUTION_BLOCKED`, as loaded from
disk. -/
def executionBlockedObj : WorkflowObj :=
  { w :=
      { sampleWorkflow with
        state := .EXECUTION_BLOCKED
        block_info := some sampleBlockInfo } }

/-- Claim support: a status slot announcing a block. -/
def blockedStatus : AgentStatus :=
  { status := "blocked", message := some "need a decision",
    question := some "Which auth library?", options := some ["A", "B"],
    output_file := none }

/-- Claim support: a status slot announcing completion. -/
def completeStatus : AgentStatus :=
  { status := "complete", message := some "Implementation complete",
    question := none, options := none, output_file := none }

/-- Claim support: a status slot announcing an agent error. -/
def errorStatus : AgentStatus :=
  { status := "error", message := some "agent exploded", question := none,
    options := none, output_file := none }

/-- Claim support: a config with only the required field set (every other
field keeps its dataclass default). -/
def sampleConfig : OrchestratorConfig := { linear_api_key := "k" }

/-- Claim support: a concrete fetched Linear issue. -/
def sampleIssue : Issue := { identifier := "DEC-1", title := "Fix the bug" }

/-- Claim C1 counterexample: `create_workflow` does fail on every call, but
not with the claimed `TypeError` from the `Workflow(...)` keyword arguments:
evaluating the argument `max_review_iterations=self.config.
max_review_iterations` (line 72) raises an `AttributeError` - not a
`TypeError` - before the dataclass constructor is ever invoked. -/
theorem C1_counterexample :
    (createWorkflow sampleConfig "DEC-1" (some AgentType.CLAUDE)
        (some AgentType.CLAUDE) (some AgentType.CLAUDE) sampleIssue
        "abc12345" "t0").2 =
      .error (.attributeError "OrchestratorConfig" "max_review_iterations") ∧
    (PyErr.attributeError "OrchestratorConfig"
        "max_review_iterations").isTypeError = false :=
  ⟨rfl, rfl⟩

/-- Claim C1 (amended): for every ticket and every choice of agent models
(any combination of explicit and defaulted, under a config whose declared
default planner and executor parse), `create_workflow` raises an
`AttributeError` on a missing `OrchestratorConfig` attribute -
`default_reviewer` when no review model is supplied (line 47), otherwise
`max_review_iterations` (line 72) - before the `Workflow` constructor is
reached, and persists no record.  The undeclared constructor keywords the
original claim blames are real (`review_model` and `max_review_iterations`
are passed but not declared fields), but the config lookup fails first. -/
theorem C1_amended (cfg : OrchestratorConfig) (ticket : String)
    (p e r : Option AgentType) (pd ed : AgentType) (issue : Issue)
    (hex8 now : String)
    (hp : p = none → AgentType.fromValue (.str cfg.default_planner) = .ok pd)
    (he : e = none → AgentType.fromValue (.str cfg.default_executor) = .ok ed) :
    createWorkflow cfg ticket p e r issue hex8 now =
      ([], .error (.attributeError "OrchestratorConfig"
        (match r with
         | some _ => "max_review_iterations"
         | none => "default_reviewer"))) ∧
    Workflow.fieldNames.contains "review_model" = false ∧
    Workflow.fieldNames.contains "max_review_iterations" = false ∧
    createWorkflowKwargNames.contains "review_model" = true ∧
    createWorkflowKwargNames.contains "max_review_iterations" = true := by
  refine ⟨?_, by decide, by decide, by decide, by decide⟩
  cases p with
  | some a =>
    cases e with
    | some b =>
      cases r <;>
        simp +decide [createWorkflow, mBindDef, mBindOk, mBindErr, mPureDef,
          liftE, OrchestratorConfig.attrLookup, OrchestratorConfig.fieldNames]
    | none =>
      cases r <;>
        simp +decide [createWorkflow, mBindDef, mBindOk, mBindErr, mPureDef,
          liftE, OrchestratorConfig.attrLookup, OrchestratorConfig.fieldNames,
          he rfl]
  | none =>
    cases e with
    | some b =>
      cases r <;>
        simp +decide [createWorkflow, mBindDef, mBindOk, mBindErr, mPureDef,
          liftE, OrchestratorConfig.attrLookup, OrchestratorConfig.fieldNames,
          hp rfl]
    | none =>
      cases r <;>
        simp +decide [createWorkflow, mBindDef, mBindOk, mBindErr, mPureDef,
          liftE, OrchestratorConfig.attrLookup, OrchestratorConfig.fieldNames,
          hp rfl, he rfl]

/-- Claim C1 witness: the amended theorem applied with both models defaulted
under the stock config: the error is the `default_reviewer` lookup and the
trace is empty. -/
theorem C1_amended_witness :
    createWorkflow sampleConfig "DEC-1" none none none sampleIssue
        "abc12345" "t0" =
      ([], .error (.attributeError "OrchestratorConfig" "default_reviewer")) ∧
    Workflow.fieldNames.contains "review_model" = false ∧
    Workflow.fieldNames.contains "max_review_iterations" = false ∧
    createWorkflowKwargNames.contains "review_model" = true ∧
    createWorkflowKwargNames.contains "max_review_iterations" = true :=
  C1_amended sampleConfig "DEC-1" none none none AgentType.CODEX
    AgentType.CLAUDE sampleIssue "abc12345" "t0" (fun _ => rfl) (fun _ => rfl)

/-- Claim C2 counterexample: the claimed iff fails on a reachable persisted
record.  Run the execution monitor on a workflow that blocks and whose
container then exits: the blocked step persists `EXECUTION_BLOCKED` with a
`BlockInfo`, but the monitor never clears `block_info` afterwards, so the
exit step persists a record in the terminal `FAILED` state that still
carries the stale non-null `block_info` - a terminal record with non-null
`block_info`, contradicting both directions the claim asserts. -/
theorem C2_counterexample :
    (savedRecords (monitorExecution sampleObj
        [Tick.file blockedStatus, Tick.exited] "" "t1").1).any
      (fun w => w.is_terminal && w.block_info.isSome) = true := by
  decide

/-- Claim C2 (amended): the direction the code does maintain: every record
persisted by the execution monitor or by `respond_to_workflow` that is in a
blocked state carries a non-null `block_info` (the blocked branch installs
it in the same step).  The converse direction of the original claim is
false: after a block is resumed, later persisted records keep the stale
`block_info` in non-blocked - even terminal - states, because no monitor
branch ever clears it. -/
theorem C2_amended :
    (∀ (o : WorkflowObj) (ticks : List Tick) (logs now : String),
        ∀ w' ∈ savedRecords (monitorExecution o ticks logs now).1,
          blockedConsistent w' = true) ∧
    (∀ (o : WorkflowObj) (r now : String),
        ∀ w' ∈ savedRecords (respondToWorkflow o r now).1,
          blockedConsistent w' = true) := by
  constructor
  · intro o ticks logs now w' hw'
    cases hc : o.container_id with
    | none =>
      simp [monitorExecution, hc, WorkflowObj.getContainerId, mBindDef,
        mBindErr, liftE, savedRecords_nil] at hw'
    | some cid =>
      simp [monitorExecution, hc, WorkflowObj.getContainerId, mBindDef,
        mBindOk, liftE] at hw'
      exact monitorGo_blockedConsistent _ _ _ _ _ hw'
  · exact respond_saves_blockedConsistent

/-- Claim C2 witness: the amended theorem applied to a concrete run in which
the agent reports an error: the persisted `FAILED` record satisfies the
invariant direction. -/
theorem C2_amended_witness :
    blockedConsistent (sampleWorkflow.update_state WorkflowState.FAILED
      (some "agent exploded") "t1") = true :=
  C2_amended.1 sampleObj [Tick.file errorStatus] "" "t1"
    (sampleWorkflow.update_state WorkflowState.FAILED
      (some "agent exploded") "t1") (by decide)

/-- Claim C3: `respond_to_workflow` on a `PLANNING_BLOCKED` record yields
`PLANNING`, on an `EXECUTION_BLOCKED` record yields `EXECUTING`, in both
cases clearing `block_info` and recording exactly the response string; on a
non-blocked record it raises `ValueError` having performed no effect and no
mutation. -/
theorem C3_respond_spec (o : WorkflowObj) (r now : String) :
    (o.w.state = WorkflowState.PLANNING_BLOCKED →
      (respondToWorkflow o r now).2 =
        .ok { o with
              w := { o.w with
                     state := WorkflowState.PLANNING
                     updated_at := now
                     block_info := none
                     human_response := some r } }) ∧
    (o.w.state = WorkflowState.EXECUTION_BLOCKED →
      (respondToWorkflow o r now).2 =
        .ok { o with
              w := { o.w with
                     state := WorkflowState.EXECUTING
                     updated_at := now
                     block_info := none
                     human_response := some r } }) ∧
    (o.w.is_blocked = false →
      respondToWorkflow o r now =
        ([], .error (.valueError ("Workflow " ++ o.w.id ++
          " is not blocked")))) := by
  refine ⟨fun h => ?_, fun h => ?_, fun h => ?_⟩
  · simp [respondToWorkflow, Workflow.is_blocked, h, mBindDef, mBindOk,
      mBindErr, mPureDef, DockerManager.write_agent_response, emit,
      WorkflowObj.setUnblockedM, WorkflowObj.updateStateM, WorkflowObj.saveW,
      Workflow.set_unblocked, Workflow.update_state]
  · simp [respondToWorkflow, Workflow.is_blocked, h, mBindDef, mBindOk,
      mBindErr, mPureDef, DockerManager.write_agent_response, emit,
      WorkflowObj.setUnblockedM, WorkflowObj.updateStateM, WorkflowObj.saveW,
      Workflow.set_unblocked, Workflow.update_state]
  · simp [respondToWorkflow, h, pyRaise]

/-- Claim C3 witness: the three cases of the respond contract at concrete
records. -/
theorem C3_respond_witness :
    (respondToWorkflow planningBlockedObj "use B" "t1").2 =
      .ok { planningBlockedObj with
            w := { planningBlockedObj.w with
                   state := WorkflowState.PLANNING
                   updated_at := "t1"
                   block_info := none
                   human_response := some "use B" } } ∧
    (respondToWorkflow executionBlockedObj "use B" "t1").2 =
      .ok { executionBlockedObj with
            w := { executionBlockedObj.w with
                   state := WorkflowState.EXECUTING
                   updated_at := "t1"
                   block_info := none
                   human_response := some "use B" } } ∧
    respondToWorkflow sampleObj "use B" "t1" =
      ([], .error (.valueError ("Workflow " ++ sampleObj.w.id ++
        " is not blocked"))) :=
  ⟨(C3_respond_spec planningBlockedObj "use B" "t1").1 rfl,
   (C3_respond_spec executionBlockedObj "use B" "t1").2.1 rfl,
   (C3_respond_spec sampleObj "use B" "t1").2.2 (by decide)⟩

/-- Claim C4: the rework-bound behaviour cannot occur in this code at all.
The enum declares no `REVIEWING`, `REVIEW_BLOCKED` or `NEEDS_REWORK`
members and the config declares no `review_enabled`: when an execution
completes, the monitor raises `AttributeError` on `review_enabled` before
any review dispatch, and a direct review-phase call raises `AttributeError`
on `WorkflowState.REVIEWING` as its first statement, so no record ever
reaches a review state, let alone a bounded rework loop. -/
theorem C4_review_machinery_missing :
    runReviewPhase sampleObj "t1" =
      ([], .error (.attributeError "WorkflowState" "REVIEWING")) ∧
    (monitorExecution sampleObj [Tick.file completeStatus] "" "t1").2 =
      .error (.attributeError "OrchestratorConfig" "review_enabled") ∧
    WorkflowState.byName "REVIEW_BLOCKED" =
      .error (.attributeError "WorkflowState" "REVIEW_BLOCKED") ∧
    WorkflowState.byName "NEEDS_REWORK" =
      .error (.attributeError "WorkflowState" "NEEDS_REWORK") :=
  ⟨rfl, rfl, rfl, rfl⟩

/-- Claim C5: `cmd_cancel` rejects a terminal record untouched (exit code 1,
no events), but on every stored non-terminal record it raises
`AttributeError` at the `workflow.container_id` read (line 285): records
loaded from disk carry only declared dataclass fields, `container_id` is not
one, and the read is outside any `try`.  The `CANCELLED` transition and the
teardown are never reached, so no cancel ever yields `CANCELLED` or clears a
process identity. -/
theorem C5_cancel_crashes (w : Workflow) (now : String) :
    cmdCancel (some w) now =
      ([], if w.is_terminal then Except.ok 1
           else Except.error (.attributeError "Workflow" "container_id")) := by
  by_cases h : w.is_terminal <;>
    simp [cmdCancel, h, mBindDef, mBindErr, mBindOk, mPureDef, liftE,
      WorkflowObj.getContainerId]

/-- Claim C6 counterexample: the ordering guarantee fails in the exited
branch of execution monitoring.  When the container exits and a PR URL is
found in its logs, the code mutates the record to `COMPLETED` (line 303) and
updates the external tracker (line 305) BEFORE persisting the transition
(line 310): an externally visible action precedes the persistence of the
state transition that authorizes it. -/
theorem C6_counterexample :
    persistOk (monitorExecution sampleObj [Tick.exited]
      "PR created: https://github.com/acme/app/pull/12" "t1").1 = false := by
  decide

/-- Claim C6 (amended): on every execution-monitor run that never takes the
exited-with-PR-URL branch, each persisted state mutation precedes the next
externally visible action.  The original claim fails in exactly that branch
(tracker update between the `COMPLETED` mutation and its save, see the
counterexample); independently, `respond_to_workflow` writes the resume slot
before persisting the resume transition (line 515 before line 526). -/
theorem C6_amended (o : WorkflowObj) (ticks : List Tick) (logs now : String)
    (h : Tick.exited ∈ ticks → extractPrUrlFromLogs logs = none) :
    persistOk (monitorExecution o ticks logs now).1 = true := by
  cases hc : o.container_id with
  | none =>
    simp [monitorExecution, hc, WorkflowObj.getContainerId, mBindDef,
      mBindErr, liftE, persistOk]
  | some cid =>
    simp [monitorExecution, hc, WorkflowObj.getContainerId, mBindDef,
      mBindOk, liftE]
    exact monitorGo_persistOk _ _ _ _ h

/-- Claim C6 witness: the amended ordering theorem at a concrete run that
blocks, errors, and exits without a PR URL in the logs. -/
theorem C6_amended_witness :
    persistOk (monitorExecution sampleObj
      [Tick.file blockedStatus, Tick.file errorStatus]
      "no pr in these logs" "t1").1 = true :=
  C6_amended sampleObj [Tick.file blockedStatus, Tick.file errorStatus]
    "no pr in these logs" "t1" (by decide)

/-- Claim C7: the orchestrator never clears the status slot or the resume
slot.  `DockerManager.clear_status_files` exists (last conjunct) but has no
caller: no trace of an execution-phase run, a review-phase run or the
PR-creation step ever contains the clearing event, so a new phase starts
with whatever signal the previous phase left in the working directory. -/
theorem C7_no_slot_clearing (o : WorkflowObj) (ticks : List Tick)
    (logs now : String) :
    (runExecutionPhase o ticks logs now).1.contains Ev.clearStatus = false ∧
    (runReviewPhase o now).1.contains Ev.clearStatus = false ∧
    (createPrAndComplete o now).1.contains Ev.clearStatus = false ∧
    DockerManager.clear_status_files = ([Ev.clearStatus], Except.ok ()) := by
  refine ⟨?_, rfl, ?_, rfl⟩
  · simp +decide [runExecutionPhase, mBindDef, mBindOk, mBindErr, mPureDef,
      liftE, pytry, DockerManager.methodLookup, DockerManager.methods,
      WorkflowObj.updateStateM, WorkflowObj.saveW, emit]
  · cases hc : o.container_id with
    | none =>
      simp [createPrAndComplete, hc, WorkflowObj.getContainerId, mBindDef,
        mBindErr, liftE]
    | some cid =>
      simp +decide [createPrAndComplete, hc, WorkflowObj.getContainerId,
        mBindDef, mBindOk, mBindErr, mPureDef, liftE, pytry,
        DockerManager.methodLookup, DockerManager.methods,
        WorkflowObj.updateStateM, WorkflowObj.saveW, emit]

/-- Claim C8: store round-trip - saving any `Workflow` record (any state,
any combination of set and unset optional fields, with or without a nested
`BlockInfo`) and loading it back by id yields a record equal to the original
in all fields. -/
theorem C8_roundtrip (w : Workflow) :
    loadWorkflow (some (saveWorkflowFile w)) = .ok (some w) := by
  simp [loadWorkflow, saveWorkflowFile, workflow_roundtrip, exceptBindOk]

/-- Claim C9: the review phase-run call violates the propagation policy for
every input: its pre-`try` prologue resolves the undeclared enum member
`WorkflowState.REVIEWING` (line 317), so an `AttributeError` escapes the
call with an empty trace - in particular no `FAILED` transition is recorded
or persisted before it returns. -/
theorem C9_review_run_escapes (o : WorkflowObj) (now : String) :
    runReviewPhase o now =
      ([], .error (.attributeError "WorkflowState" "REVIEWING")) := rfl

/-- Claim C10 counterexample: `_create_pr_and_complete` does always end in
`FAILED`, but not for the claimed reason.  The recorded failure is the
`AttributeError` from resolving the nonexistent
`DockerManager.exec_agent_in_container` (line 471), which fires before
`time.sleep` (line 479) is ever reached, so the recorded message is not the
`NameError` on `time` the claim asserts. -/
theorem C10_counterexample :
    mResultState (createPrAndComplete sampleObj "t1") =
      some WorkflowState.FAILED ∧
    mResultErrMsg (createPrAndComplete sampleObj "t1") =
      some (PyErr.str (.attributeError "DockerManager"
        "exec_agent_in_container")) ∧
    (PyErr.str (.attributeError "DockerManager" "exec_agent_in_container")
        == PyErr.str (.nameError "time")) = false :=
  ⟨rfl, rfl, by decide⟩

/-- Claim C10 (amended): on every object whose `container_id` attribute is
set (the only way the step is ever invoked), `_create_pr_and_complete` ends
with the record in `FAILED` - never `COMPLETED` - because the first
statement of its `try` raises `AttributeError` on the nonexistent
`exec_agent_in_container` method, which the handler converts into a
persisted `FAILED` transition.  The missing `time` import would raise
`NameError` only if that launch step existed. -/
theorem C10_amended (o : WorkflowObj) (cid now : String)
    (h : o.container_id = some cid) :
    mResultState (createPrAndComplete o now) = some WorkflowState.FAILED ∧
    mResultErrMsg (createPrAndComplete o now) =
      some (PyErr.str (.attributeError "DockerManager"
        "exec_agent_in_container")) := by
  constructor <;>
    simp +decide [createPrAndComplete, h, WorkflowObj.getContainerId,
      mBindDef, mBindOk, mBindErr, mPureDef, liftE, pytry,
      DockerManager.methodLookup, DockerManager.methods, mResultState,
      mResultErrMsg, WorkflowObj.updateStateM, WorkflowObj.saveW, emit,
      Workflow.update_state, PyErr.str]

/-- Claim C10 witness: the amended theorem at the live sample object. -/
theorem C10_amended_witness :
    mResultState (createPrAndComplete sampleObj "t1") =
      some WorkflowState.FAILED ∧
    mResultErrMsg (createPrAndComplete sampleObj "t1") =
      some (PyErr.str (.attributeError "DockerManager"
        "exec_agent_in_container")) :=
  C10_amended sampleObj "c0" "t1" rfl
